import Mathlib

/-!
Verification of sqlcpp's value/type mediation layer.

This file gives a shallow embedding of the parts of the sqlcpp library
(include/sqlcpp/sqlcpp.hpp, include/sqlcpp/details.hpp, src/sqlcpp.cpp,
src/sqlite.cpp, src/postgresql.cpp, src/mariadb.cpp, src/odbc.cpp) that the
checked properties are about, and proves or refutes those properties.

Modelling conventions:
- `std::variant<std::monostate, std::nullptr_t, std::string, blob, bool, int,
  int64_t, double>` becomes the inductive `Value`; `blob`
  (`std::vector<unsigned char>`) becomes `List Nat` of byte values;
  C++ `double` payloads are carried as `Rat` (the checked properties never
  depend on binary floating-point rounding).
- functions that can throw (`std::stoi`, `std::stoll`, `std::stod`,
  ODBC lookups) return `Except`.
- narrowing integer casts `(int)x` / `(long long)x` are modelled as two's
  complement wrapping; `unsigned int` arithmetic is modelled mod 2^32.
- native handles (sqlite3_stmt*, PGresult*) are identified by a `Nat` id;
  pointer equality on shared handles becomes equality of ids.
-/

namespace Sqlcpp

/-- Error raised by the string-to-numeric conversion layer
(`std::stoi` / `std::stoll` / `std::stod` throwing). -/
inductive ConvError where
  | parseError (s : String)
  | outOfRange (s : String)
deriving DecidableEq, Repr

/-- The sqlcpp `value` variant:
`std::variant<std::monostate, std::nullptr_t, std::string, blob, bool, int, int64_t, double>`.
`unset` is the `std::monostate` (absent/never-assigned) alternative, `null` the
`std::nullptr_t` (SQL NULL) alternative. -/
inductive Value where
  | unset
  | null
  | str (s : String)
  | blob (b : List Nat)
  | bool (b : Bool)
  | int (i : Int)
  | int64 (i : Int)
  | double (d : Rat)
deriving DecidableEq, Repr, Inhabited

/-- `is_null(v)`: `std::holds_alternative<std::nullptr_t>(v)`. -/
def is_null : Value → Bool
  | .null => true
  | _ => false

/-- Two's complement wrap of an integer to 32 bits, modelling the C++ cast
`(int)x` of a wider integer. -/
def wrap32 (i : Int) : Int := (i + 2 ^ 31) % 2 ^ 32 - 2 ^ 31

/-- Two's complement wrap of an integer to 64 bits, modelling the C++ cast
`(long long)x`. -/
def wrap64 (i : Int) : Int := (i + 2 ^ 63) % 2 ^ 64 - 2 ^ 63

/-- Truncation of a rational toward zero, modelling the C++ cast
`(int)d` / `(long long)d` of a `double` (before the width wrap). -/
def ratTrunc (q : Rat) : Int := Int.tdiv q.num q.den

/-- Character classified as whitespace by `std::isspace` in the default locale. -/
def isCppSpace (c : Char) : Bool :=
  c = ' ' || c = '\t' || c = '\n' || c = '\x0b' || c = '\x0c' || c = '\r'

/-- Numeric value of the leading decimal digits. -/
def digitsToNat (cs : List Char) : Nat :=
  cs.foldl (fun a c => a * 10 + (c.toNat - 48)) 0

/-- Shared front end of `std::stoi`/`std::stoll`/`std::stod`: skip leading
whitespace, read an optional sign, and return (negative?, remaining chars). -/
def parseSign (s : String) : Bool × List Char :=
  match s.data.dropWhile isCppSpace with
  | '-' :: r => (true, r)
  | '+' :: r => (false, r)
  | r => (false, r)

/-- `std::stoi(s)`-style parse of the integer part: fails with
`invalid_argument` (modelled `ConvError.parseError`) when no digit follows the
optional sign; otherwise the value of the longest digit run. Range checking
(`out_of_range`) is applied by the callers at their own width. -/
def cppParseInt (s : String) : Except ConvError Int :=
  let (neg, r) := parseSign s
  let ds := r.takeWhile Char.isDigit
  if ds.isEmpty then .error (.parseError s)
  else .ok (if neg then -(digitsToNat ds : Int) else (digitsToNat ds : Int))

/-- `std::stoi(s)`: parse then range-check against `int`. -/
def cppStoi (s : String) : Except ConvError Int := do
  let i ← cppParseInt s
  if i < -(2 ^ 31) || 2 ^ 31 ≤ i then .error (.outOfRange s) else .ok i

/-- `std::stoll(s)`: parse then range-check against `long long`. -/
def cppStoll (s : String) : Except ConvError Int := do
  let i ← cppParseInt s
  if i < -(2 ^ 63) || 2 ^ 63 ≤ i then .error (.outOfRange s) else .ok i

/-- `std::stod(s)`: decimal parse with optional fractional part, to an exact
rational (exponents, hex floats and inf/nan are not exercised by any checked
property and are omitted). Fails with `invalid_argument` when no digit occurs. -/
def cppStod (s : String) : Except ConvError Rat :=
  let (neg, r) := parseSign s
  let intDs := r.takeWhile Char.isDigit
  let rest := r.drop intDs.length
  let fracDs := match rest with
    | '.' :: r2 => r2.takeWhile Char.isDigit
    | _ => []
  if intDs.isEmpty && fracDs.isEmpty then .error (.parseError s)
  else
    let mag : Rat := (digitsToNat intDs : Rat) + (digitsToNat fracDs : Rat) / (10 ^ fracDs.length : Rat)
    .ok (if neg then -mag else mag)

/-- Rendering of a `double` by `std::to_string`; modelled as the decimal
rendering of the exact rational (no checked property inspects the digits). -/
def cppToStringDouble (q : Rat) : String := toString q

/-- Hex digit character, indexing `"0123456789abcdef"` as the source does. -/
def hexDigit (n : Nat) : Char := "0123456789abcdef".data.getD n '0'

/-- `sqlcpp::details::blob_to_hex_string`: each byte rendered as two lowercase
hex digits (`hex_digits[byte >> 4]`, `hex_digits[byte & 0x0F]`); the `% 256`
reflects the `unsigned char` element type. -/
def blob_to_hex_string (data : List Nat) : String :=
  data.foldl (fun acc byte =>
    (acc.push (hexDigit (byte % 256 / 16))).push (hexDigit (byte % 256 % 16))) ""

/-- Bytes of a `std::string`, for `blob(arg.begin(), arg.end())`
(characters taken at their code value). -/
def stringToBytes (s : String) : List Nat := s.data.map Char.toNat

/-- `sqlcpp::to_string(const value&)` (src/sqlcpp.cpp): NULL and the fall-through
`else` (monostate) give `""`; blobs are hex-rendered; booleans are
`"TRUE"`/`"FALSE"`; numbers go through `std::to_string`. -/
def to_string : Value → String
  | .unset => ""
  | .null => ""
  | .str s => s
  | .blob b => blob_to_hex_string b
  | .bool b => if b then "TRUE" else "FALSE"
  | .int i => toString i
  | .int64 i => toString i
  | .double d => cppToStringDouble d

/-- `sqlcpp::to_blob(const value&)`: monostate/null give the empty blob,
strings their raw bytes, blobs themselves, booleans `{1}`/`{0}`; the numeric
`else` branch is a `TODO` in the source and returns the empty blob. -/
def to_blob : Value → List Nat
  | .unset => []
  | .null => []
  | .str s => stringToBytes s
  | .blob b => b
  | .bool b => if b then [1] else [0]
  | .int _ => []
  | .int64 _ => []
  | .double _ => []

/-- `sqlcpp::to_bool(const value&)`: the string branch is the exact comparison
`arg == "TRUE" || arg == "true" || arg == "ON" || arg == "on" || arg == "1"`;
blobs are true iff non-empty; numbers true iff non-zero. -/
def to_bool : Value → Bool
  | .unset => false
  | .null => false
  | .str s => s = "TRUE" || s = "true" || s = "ON" || s = "on" || s = "1"
  | .blob b => !b.isEmpty
  | .bool b => b
  | .int i => i != 0
  | .int64 i => i != 0
  | .double d => d != 0

/-- `sqlcpp::to_int(const value&)`: monostate/null give 0, strings go through
`std::stoi` (which may throw), the blob branch `return {};` gives `int{} = 0`,
booleans 1/0, and the `else` branch is the `(int)arg` cast. -/
def to_int : Value → Except ConvError Int
  | .unset => .ok 0
  | .null => .ok 0
  | .str s => cppStoi s
  | .blob _ => .ok 0
  | .bool b => .ok (if b then 1 else 0)
  | .int i => .ok i
  | .int64 i => .ok (wrap32 i)
  | .double d => .ok (wrap32 (ratTrunc d))

/-- `sqlcpp::to_int64(const value&)`: as `to_int` with `std::stoll` and the
`(long long)arg` cast. -/
def to_int64 : Value → Except ConvError Int
  | .unset => .ok 0
  | .null => .ok 0
  | .str s => cppStoll s
  | .blob _ => .ok 0
  | .bool b => .ok (if b then 1 else 0)
  | .int i => .ok i
  | .int64 i => .ok i
  | .double d => .ok (wrap64 (ratTrunc d))

/-- `sqlcpp::to_double(const value&)`: monostate/null/blob give 0.0, strings go
through `std::stod`, booleans 1.0/0.0, numbers are widened. -/
def to_double : Value → Except ConvError Rat
  | .unset => .ok 0
  | .null => .ok 0
  | .str s => cppStod s
  | .blob _ => .ok 0
  | .bool b => .ok (if b then 1 else 0)
  | .int i => .ok (i : Rat)
  | .int64 i => .ok (i : Rat)
  | .double d => .ok d

/-- `sqlcpp::to_string_opt`: the nullptr branch and the fall-through `else`
(monostate) return the empty optional; every other alternative returns the
same rendering as `to_string`, engaged. -/
def to_string_opt : Value → Option String
  | .unset => none
  | .null => none
  | .str s => some s
  | .blob b => some (blob_to_hex_string b)
  | .bool b => some (if b then "TRUE" else "FALSE")
  | .int i => some (toString i)
  | .int64 i => some (toString i)
  | .double d => some (cppToStringDouble d)

/-- `sqlcpp::to_blob_opt`: monostate/null give the empty optional; the numeric
`else` branch `return {};` in an `std::optional<blob>` lambda is ALSO the empty
optional (unlike `to_blob`, whose `{}` is the empty blob). -/
def to_blob_opt : Value → Option (List Nat)
  | .unset => none
  | .null => none
  | .str s => some (stringToBytes s)
  | .blob b => some b
  | .bool b => some (if b then [1] else [0])
  | .int _ => none
  | .int64 _ => none
  | .double _ => none

/-- `sqlcpp::to_bool_opt`: empty exactly on monostate/null; otherwise the same
result as `to_bool`, engaged. -/
def to_bool_opt : Value → Option Bool
  | .unset => none
  | .null => none
  | .str s => some (s = "TRUE" || s = "true" || s = "ON" || s = "on" || s = "1")
  | .blob b => some (!b.isEmpty)
  | .bool b => some b
  | .int i => some (i != 0)
  | .int64 i => some (i != 0)
  | .double d => some (d != 0)

/-- `sqlcpp::to_int_opt`: monostate/null give the empty optional, and the blob
branch `return {};` in an `std::optional<int>` lambda is ALSO the empty
optional (whereas `to_int` gives 0 there). -/
def to_int_opt : Value → Except ConvError (Option Int)
  | .unset => .ok none
  | .null => .ok none
  | .str s => (cppStoi s).map some
  | .blob _ => .ok none
  | .bool b => .ok (some (if b then 1 else 0))
  | .int i => .ok (some i)
  | .int64 i => .ok (some (wrap32 i))
  | .double d => .ok (some (wrap32 (ratTrunc d)))

/-- `sqlcpp::to_int64_opt`: as `to_int_opt` (blob branch empty). -/
def to_int64_opt : Value → Except ConvError (Option Int)
  | .unset => .ok none
  | .null => .ok none
  | .str s => (cppStoll s).map some
  | .blob _ => .ok none
  | .bool b => .ok (some (if b then 1 else 0))
  | .int i => .ok (some i)
  | .int64 i => .ok (some i)
  | .double d => .ok (some (wrap64 (ratTrunc d)))

/-- `sqlcpp::to_double_opt`: monostate/null give the empty optional; the blob
branch `return 0.0;` is an ENGAGED optional holding 0.0 (agreeing with
`to_double`, unlike the int variants). -/
def to_double_opt : Value → Except ConvError (Option Rat)
  | .unset => .ok none
  | .null => .ok none
  | .str s => (cppStod s).map some
  | .blob _ => .ok (some 0)
  | .bool b => .ok (some (if b then 1 else 0))
  | .int i => .ok (some (i : Rat))
  | .int64 i => .ok (some (i : Rat))
  | .double d => .ok (some d)

/-!  Generic row (`sqlcpp::details::generic_row`, src/sqlcpp.cpp). -/

/-- A detached row: `std::vector<value> _values`. -/
structure GenericRow where
  values : List Value
deriving DecidableEq, Repr, Inhabited

/-- `generic_row::get_value(unsigned) const`:
`index < _values.size() ? _values[index] : value{}` (the default-constructed
`value{}` is the monostate alternative). -/
def GenericRow.get_value (r : GenericRow) (index : Nat) : Value :=
  if index < r.values.length then r.values.getD index .unset else .unset

/-- `generic_row::get_value_string`: in-range values through `to_string`,
out-of-range gives `""`. -/
def GenericRow.get_value_string (r : GenericRow) (index : Nat) : String :=
  if index < r.values.length then to_string (r.values.getD index .unset) else ""

/-- `generic_row::get_value_blob`: in-range through `to_blob`, else `blob{}`. -/
def GenericRow.get_value_blob (r : GenericRow) (index : Nat) : List Nat :=
  if index < r.values.length then to_blob (r.values.getD index .unset) else []

/-- `generic_row::get_value_bool`: in-range through `to_bool`, else `false`. -/
def GenericRow.get_value_bool (r : GenericRow) (index : Nat) : Bool :=
  if index < r.values.length then to_bool (r.values.getD index .unset) else false

/-- `generic_row::get_value_int`: in-range through `to_int`, else `0`. -/
def GenericRow.get_value_int (r : GenericRow) (index : Nat) : Except ConvError Int :=
  if index < r.values.length then to_int (r.values.getD index .unset) else .ok 0

/-- `generic_row::get_value_int64`: in-range through `to_int64`, else `0`. -/
def GenericRow.get_value_int64 (r : GenericRow) (index : Nat) : Except ConvError Int :=
  if index < r.values.length then to_int64 (r.values.getD index .unset) else .ok 0

/-- `generic_row::get_value_double`: in-range through `to_double`, else `.0`. -/
def GenericRow.get_value_double (r : GenericRow) (index : Nat) : Except ConvError Rat :=
  if index < r.values.length then to_double (r.values.getD index .unset) else .ok 0

/-!  Column-name lookup (`column_index`) across the adapters. -/

/-- The out-of-range sentinel `~0u` / `std::numeric_limits<unsigned int>::max()`. -/
def UINT_MAX : Nat := 2 ^ 32 - 1

/-- One entry of `generic_buffered_resultset::_columns` (only the fields the
name lookup touches). -/
structure ColumnInfo where
  name : String
  index : Nat
deriving DecidableEq, Repr

/-- `generic_buffered_resultset::column_index`: linear scan of `_columns`,
returning the `index` field of the first column whose `name` equals the
argument (case-sensitive `std::string` equality), else `~0u`. -/
def generic_column_index : List ColumnInfo → String → Nat
  | [], _ => UINT_MAX
  | c :: rest, name => if c.name = name then c.index else generic_column_index rest name

/-- `generic_buffered_resultset::add_column`: appends a column whose `index`
field is the count of columns already present. -/
def generic_add_column (cols : List ColumnInfo) (name : String) : List ColumnInfo :=
  cols ++ [⟨name, cols.length⟩]

/-- Columns of a buffered resultset built by repeated `add_column` calls. -/
def columns_of (names : List String) : List ColumnInfo :=
  names.foldl generic_add_column []

/-- Loop of `sqlcpp::sqlite::resultset::column_index` (src/sqlite.cpp):
`for(idx = 0; idx < column_count(); ++idx) if(name == column_name(idx)) return idx;`
then `std::numeric_limits<unsigned int>::max()`. -/
def sqlite_column_index_loop : Nat → List String → String → Nat
  | _, [], _ => UINT_MAX
  | idx, n :: rest, name =>
    if name = n then idx else sqlite_column_index_loop (idx + 1) rest name

/-- `sqlcpp::sqlite::resultset::column_index` over the statement's column names. -/
def sqlite_column_index (names : List String) (name : String) : Nat :=
  sqlite_column_index_loop 0 names name

/-- Loop of `sqlcpp::mariadb::mysql_statement::column_index` (src/mariadb.cpp):
scan of `_column_names`, first match wins, else `~0u`. -/
def mariadb_column_index_loop : Nat → List String → String → Nat
  | _, [], _ => UINT_MAX
  | idx, n :: rest, name =>
    if name = n then idx else mariadb_column_index_loop (idx + 1) rest name

/-- `sqlcpp::mariadb::mysql_statement::column_index`. -/
def mariadb_column_index (names : List String) (name : String) : Nat :=
  mariadb_column_index_loop 0 names name

/-- Loop of `sqlcpp::odbc::resultset::column_index` (src/odbc.cpp): scan of the
column names, first match wins, otherwise
`throw std::runtime_error("Column not found: " + name)`. -/
def odbc_column_index_loop : Nat → List String → String → Except String Nat
  | _, [], name => .error ("Column not found: " ++ name)
  | i, n :: rest, name =>
    if n = name then .ok i else odbc_column_index_loop (i + 1) rest name

/-- `sqlcpp::odbc::resultset::column_index`. -/
def odbc_column_index (names : List String) (name : String) : Except String Nat :=
  odbc_column_index_loop 0 names name

/-- `sqlcpp::postgresql::resultset::column_index` (src/postgresql.cpp): the
native `PQfnumber` result (an `int`, negative on a miss) is returned when
`>= 0`, else `std::numeric_limits<unsigned int>::max()`. -/
def pg_column_index (pqfnumberResult : Int) : Nat :=
  if 0 ≤ pqfnumberResult then pqfnumberResult.toNat else UINT_MAX

/-!  PostgreSQL row accessors (`sqlcpp::postgresql::resultset_row_iterator_impl`).

The adapter always requests text-format results (`PQexecPrepared` is called
with `resultFormat = 0`, and `PQexec` always yields text format), so the
`isBinary` (`PQfformat != 0`) branches of the accessors are dead in this
program and the cell model carries the text bytes only. -/

/-- One fetched PostgreSQL cell: the `PQgetisnull` flag and the `PQgetvalue`
text bytes. -/
structure PGCell where
  isNull : Bool
  bytes : String
deriving DecidableEq, Repr

/-- Nibble value of a hex digit character, as decoded by
`sqlcpp::postgresql::helpers::parse_blob`. -/
def hexNibbleVal (c : Char) : Option Nat :=
  if '0' ≤ c ∧ c ≤ '9' then some (c.toNat - 48)
  else if 'a' ≤ c ∧ c ≤ 'f' then some (c.toNat - 87)
  else if 'A' ≤ c ∧ c ≤ 'F' then some (c.toNat - 55)
  else none

/-- Hex branch of `helpers::parse_blob` (after the `\x` prefix): bytes are
decoded two nibbles at a time (a trailing lone nibble yields that nibble's
value); an invalid character makes the whole parse return the empty blob
(modelled by `none`). -/
def pg_parse_blob_hex : List Char → Option (List Nat)
  | [] => some []
  | [c] => (hexNibbleVal c).map (fun n => [n])
  | c1 :: c2 :: rest => do
    let n1 ← hexNibbleVal c1
    let n2 ← hexNibbleVal c2
    let r ← pg_parse_blob_hex rest
    pure ((n1 * 16 + n2) :: r)

/-- Escape branch of `helpers::parse_blob`: `\NNN` octal escapes consume three
characters after the backslash (however many of them were octal digits),
`\\` yields a backslash byte, any other escape makes the parse return the
empty blob (`none`); plain characters pass through at their byte value. -/
def pg_parse_blob_escape : List Char → Option (List Nat)
  | [] => some []
  | c :: rest =>
    if c = '\\' then
      match rest with
      | [] => none
      | c1 :: rest1 =>
        if '0' ≤ c1 ∧ c1 ≤ '3' then
          let ds := ((c1 :: rest1).take 3).takeWhile (fun d => decide ('0' ≤ d ∧ d ≤ '7'))
          let v := (ds.foldl (fun a d => a * 8 + (d.toNat - 48)) 0) % 256
          (pg_parse_blob_escape (rest1.drop 2)).map (fun r => v :: r)
        else if c1 = '\\' then
          (pg_parse_blob_escape rest1).map (fun r => 92 :: r)
        else none
    else
      (pg_parse_blob_escape rest).map (fun r => (c.toNat % 256) :: r)
termination_by l => l.length
decreasing_by all_goals simp only [List.length_cons, List.length_drop]; omega

/-- `sqlcpp::postgresql::helpers::parse_blob`: strings starting with `\x` are
hex-decoded, others unescaped; any invalid input yields the empty blob. -/
def pg_parse_blob (s : String) : List Nat :=
  match s.data with
  | '\\' :: 'x' :: rest => (pg_parse_blob_hex rest).getD []
  | cs => (pg_parse_blob_escape cs).getD []

/-- `resultset_row_iterator_impl::get_value_string` (src/postgresql.cpp):
a NULL cell yields the literal string `"NULL"`; otherwise the raw
`PQgetvalue` bytes. -/
def pg_get_value_string (c : PGCell) : String :=
  if c.isNull then "NULL" else c.bytes

/-- `resultset_row_iterator_impl::get_value_blob`: NULL gives the empty blob,
otherwise the text bytes through `helpers::parse_blob`. -/
def pg_get_value_blob (c : PGCell) : List Nat :=
  if c.isNull then [] else pg_parse_blob c.bytes

/-- `resultset_row_iterator_impl::get_value_bool`: NULL gives `false`,
otherwise `*val == 't'` on the first text byte. -/
def pg_get_value_bool (c : PGCell) : Bool :=
  if c.isNull then false else c.bytes.data.headD (Char.ofNat 0) = 't'

/-- `resultset_row_iterator_impl::get_value_int`: NULL gives `0`, otherwise
`std::stoi` on the text bytes. -/
def pg_get_value_int (c : PGCell) : Except ConvError Int :=
  if c.isNull then .ok 0 else cppStoi c.bytes

/-- `resultset_row_iterator_impl::get_value_int64`: NULL gives `0`, otherwise
`std::stoll`. -/
def pg_get_value_int64 (c : PGCell) : Except ConvError Int :=
  if c.isNull then .ok 0 else cppStoll c.bytes

/-- `resultset_row_iterator_impl::get_value_double`: NULL gives `0`, otherwise
`std::stod`. -/
def pg_get_value_double (c : PGCell) : Except ConvError Rat :=
  if c.isNull then .ok 0 else cppStod c.bytes

/-!  Cursor iterators and their equality (claims about `different`). -/

/-- `SQLITE_OK` result code. -/
def SQLITE_OK : Nat := 0
/-- `SQLITE_ROW` step result: a row is available. -/
def SQLITE_ROW : Nat := 100
/-- `SQLITE_DONE` step result: the statement is exhausted. -/
def SQLITE_DONE : Nat := 101
/-- `SQLITE_CANTOPEN` open result: the database file cannot be opened. -/
def SQLITE_CANTOPEN : Nat := 14

/-- `sqlcpp::sqlite::resultset_row_iterator_impl`: the shared
`sqlite3_stmt*` handle (identified by a `Nat` id) and the last
`sqlite3_step` result `_state`. -/
structure SqliteIter where
  stmt : Nat
  state : Nat
deriving DecidableEq, Repr

/-- `sqlite::resultset_row_iterator_impl::different`:
`_stmt == impl->_stmt ? _state != impl->_state : true`. -/
def sqlite_iter_different (a b : SqliteIter) : Bool :=
  if a.stmt = b.stmt then a.state != b.state else true

/-- `sqlite::resultset::begin()`: an iterator over the resultset's statement
carrying the resultset's current `_state` (the result of the `sqlite3_step`
performed by `statement::execute`). -/
def sqlite_resultset_begin (stmt state : Nat) : SqliteIter := ⟨stmt, state⟩

/-- `sqlite::resultset::end()`: an iterator over the same statement with state
pinned to `SQLITE_DONE`. -/
def sqlite_resultset_end (stmt : Nat) : SqliteIter := ⟨stmt, SQLITE_DONE⟩

/-- A `PGresult` handle: its identity (pointer) and its `PQntuples` row count. -/
structure PGResHandle where
  id : Nat
  ntuples : Nat
deriving DecidableEq, Repr

/-- `sqlcpp::postgresql::resultset_row_iterator_impl`: the shared `PGresult`
handle (empty for the end sentinel) and the current row index `_row`. -/
structure PGIter where
  stmt : Option PGResHandle
  row : Nat
deriving DecidableEq, Repr

/-- `postgresql::resultset_row_iterator_impl::ok()`:
`_stmt && _row < PQntuples(_stmt.get())`. -/
def pg_iter_ok (it : PGIter) : Bool :=
  match it.stmt with
  | some r => it.row < r.ntuples
  | none => false

/-- `postgresql::resultset_row_iterator_impl::different`: two invalid
(exhausted) iterators compare equal; otherwise the handles and row indices
are compared. -/
def pg_iter_different (a b : PGIter) : Bool :=
  if !pg_iter_ok a && !pg_iter_ok b then false
  else decide (a.stmt ≠ b.stmt) || decide (a.row ≠ b.row)

/-- `postgresql::resultset::begin()`: an iterator on the result handle at row 0. -/
def pg_resultset_begin (res : PGResHandle) : PGIter := ⟨some res, 0⟩

/-- `postgresql::resultset::end()`: an iterator with no result handle. -/
def pg_resultset_end : PGIter := ⟨none, 0⟩

/-!  Positional parameter binding: public index → native index (claim C4). -/

/-- Modulus of C++ `unsigned int` arithmetic. -/
def UINT_MOD : Nat := 2 ^ 32

/-- `sqlcpp::sqlite::statement::bind(unsigned int index, ...)`: every
positional overload passes `index + 1` to the `sqlite3_bind_*` call
(`unsigned` arithmetic). -/
def sqlite_bind_native_index (index : Nat) : Nat := (index + 1) % UINT_MOD

/-- `sqlcpp::mariadb::statement::bind(unsigned int index, ...)`: every
positional overload passes `index - 1` to `mysql_statement::bind`
(`unsigned` arithmetic, so 0 wraps). -/
def mariadb_bind_native_index (index : Nat) : Nat := (index + UINT_MOD - 1) % UINT_MOD

/-- `sqlcpp::odbc::statement::bind(unsigned int index, ...)`: every positional
overload passes `index + 1` to `SQLBindParameter`. -/
def odbc_bind_native_index (index : Nat) : Nat := (index + 1) % UINT_MOD

/-- Index of the first SQL parameter in SQLite's native binding API
(`sqlite3_bind_*` parameters are numbered from 1, per the adapter's own
`NOTE : in SQLite, index start at 1, not 0`). -/
def sqlite_native_first_parameter : Nat := 1

/-- Index of the first SQL parameter in MariaDB's native binding model (the
`MYSQL_BIND` parameter array is indexed from 0). -/
def mariadb_native_first_parameter : Nat := 0

/-- Index of the first SQL parameter in ODBC's `SQLBindParameter`
(`ParameterNumber` starts at 1). -/
def odbc_native_first_parameter : Nat := 1

/-!  SQLite connection create / prepare / execute (claims C1 and C7). -/

/-- `sqlcpp::sqlite::connection::create` outcome as a function of the
`sqlite3_open` result code: on success a connection over the opened handle,
on failure the handle is closed and an EMPTY pointer is returned (the
`// TODO throw exception` path). -/
def sqlite_connection_create (rc : Nat) (db : Nat) : Option Nat :=
  if rc = SQLITE_OK then some db else none

/-- `sqlcpp::sqlite::connection::prepare` outcome as a function of the
`sqlite3_prepare_v2` result code: on failure an error is printed and an EMPTY
pointer returned (again a `// TODO throw exception` path). -/
def sqlite_connection_prepare (rc : Nat) (stmt : Nat) : Option Nat :=
  if rc = SQLITE_OK then some stmt else none

/-- The two change counters sqlite exposes on a connection:
`sqlite3_total_changes64` (cumulative) and `sqlite3_changes64` (rows changed
by the most recently completed statement). -/
structure SqliteDb where
  totalChanges : Nat
  lastChanges : Nat
deriving DecidableEq, Repr

/-- Effect of completing one data-modifying statement that changes `c` rows on
the connection's counters. -/
def sqlite_exec_statement (db : SqliteDb) (c : Nat) : SqliteDb :=
  ⟨db.totalChanges + c, c⟩

/-- `sqlite3_exec` over a semicolon-joined batch, represented by the list of
per-statement change counts. -/
def sqlite_exec (db : SqliteDb) (batch : List Nat) : SqliteDb :=
  batch.foldl sqlite_exec_statement db

/-- Affected-row count reported by `sqlcpp::sqlite::connection::execute`:
`change_count != 0 ? change_count : (total_after - total_before)` where
`change_count = sqlite3_changes64` after the whole batch and the totals are
`sqlite3_total_changes64` snapshots around it. -/
def sqlite_connection_execute_affected (db : SqliteDb) (batch : List Nat) : Nat :=
  let totalBefore := db.totalChanges
  let db2 := sqlite_exec db batch
  if db2.lastChanges ≠ 0 then db2.lastChanges else db2.totalChanges - totalBefore

/-- `mysql_affected_rows` sentinel `(my_ulonglong)-1` returned for statements
that produce a resultset. -/
def UINT64_MAX : Nat := 2 ^ 64 - 1

/-- Affected-row count reported by `sqlcpp::mariadb::connection::execute`:
the `do { ... } while(mysql_next_result(..) == 0)` loop adds each result's
`mysql_affected_rows` into the running total whenever it is not `~0ull`.
The batch is represented by the list of per-statement
`mysql_affected_rows` values. -/
def mariadb_connection_execute_affected (results : List Nat) : Nat :=
  results.foldl (fun total r => if r ≠ UINT64_MAX then total + r else total) 0

/-!  PostgreSQL prepared statement: parameter storage and transmission (C5). -/

/-- `ensure(_params, index)` (src/postgresql.cpp): grow the parameter vector to
`index + 1` slots when needed; new slots hold default-constructed values
(the monostate alternative). -/
def pg_ensure (params : List Value) (index : Nat) : List Value :=
  if params.length ≤ index then
    params ++ List.replicate (index + 1 - params.length) Value.unset
  else params

/-- `sqlcpp::postgresql::statement::bind(unsigned int index, v)`: every
positional overload does `ensure(_params, index)[index] = v`. -/
def pg_bind (params : List Value) (index : Nat) (v : Value) : List Value :=
  (pg_ensure params index).set index v

/-- Binding the values `vs` at indices `0, 1, ..., vs.length - 1` in order,
starting from an empty parameter vector. -/
def pg_bind_all (vs : List Value) : List Value :=
  vs.enum.foldl (fun ps iv => pg_bind ps iv.1 iv.2) []

/-- Rendering of one stored parameter inside
`sqlcpp::postgresql::statement::execute_prepared`: monostate and nullptr push
a null pointer (SQL NULL, modelled `none`); strings pass through; blobs
become `\x`-prefixed hex; booleans `"TRUE"`/`"FALSE"`; numbers go through
`std::to_string`. -/
def pg_param_render : Value → Option String
  | .unset => none
  | .null => none
  | .str s => some s
  | .blob b => some ("\\x" ++ blob_to_hex_string b)
  | .bool b => some (if b then "TRUE" else "FALSE")
  | .int i => some (toString i)
  | .int64 i => some (toString i)
  | .double d => some (cppToStringDouble d)

/-- The parameter array handed to `PQexecPrepared` by `execute_prepared`: the
loop `for(int i = 1; i < sz; i++)` renders the slots `1 .. sz-1` of
`_params`, in order. -/
def pg_execute_transmitted (params : List Value) : List (Option String) :=
  (List.range' 1 (params.length - 1)).map (fun i => pg_param_render (params.getD i .unset))

/-!  Definitions following the specification's words (for comparison against
the embedded source behaviour). -/

/-- Lowercasing of an ASCII character, for the spec's notion of
case-insensitive matching. -/
def asciiLower (c : Char) : Char :=
  if 'A' ≤ c ∧ c ≤ 'Z' then Char.ofNat (c.toNat + 32) else c

/-- The string-to-bool conversion as the specification words it:
true iff a case-insensitive match of one of `true`, `on`, `1`. -/
def spec_string_to_bool_ci (s : String) : Bool :=
  let l := s.data.map asciiLower
  l = "true".data || l = "on".data || l = "1".data

/-- Raw byte reinterpretation of a blob as characters, as the specification
describes the value-coercion blob-to-string behaviour. -/
def spec_raw_bytes_string (b : List Nat) : String :=
  String.mk (b.map Char.ofNat)

/-- Ordinal of the first case-sensitive match of `name` in `names`
(the specification's "ordinal of the first match"). -/
def firstMatchIdx : List String → String → Option Nat
  | [], _ => none
  | n :: rest, name =>
    if n = name then some 0 else (firstMatchIdx rest name).map (· + 1)

/-!  Helper lemmas. -/

theorem GenericRow.get_value_string_eq (r : GenericRow) (i : Nat) :
    r.get_value_string i = to_string (r.get_value i) := by
  unfold GenericRow.get_value_string GenericRow.get_value
  split <;> simp [to_string]

theorem GenericRow.get_value_blob_eq (r : GenericRow) (i : Nat) :
    r.get_value_blob i = to_blob (r.get_value i) := by
  unfold GenericRow.get_value_blob GenericRow.get_value
  split <;> simp [to_blob]

theorem GenericRow.get_value_bool_eq (r : GenericRow) (i : Nat) :
    r.get_value_bool i = to_bool (r.get_value i) := by
  unfold GenericRow.get_value_bool GenericRow.get_value
  split <;> simp [to_bool]

theorem GenericRow.get_value_int_eq (r : GenericRow) (i : Nat) :
    r.get_value_int i = to_int (r.get_value i) := by
  unfold GenericRow.get_value_int GenericRow.get_value
  split <;> simp [to_int]

theorem GenericRow.get_value_int64_eq (r : GenericRow) (i : Nat) :
    r.get_value_int64 i = to_int64 (r.get_value i) := by
  unfold GenericRow.get_value_int64 GenericRow.get_value
  split <;> simp [to_int64]

theorem GenericRow.get_value_double_eq (r : GenericRow) (i : Nat) :
    r.get_value_double i = to_double (r.get_value i) := by
  unfold GenericRow.get_value_double GenericRow.get_value
  split <;> simp [to_double]

/-- Columns produced by successive `add_column` calls starting at index `k`. -/
def columns_from (k : Nat) : List String → List ColumnInfo
  | [] => []
  | n :: rest => ⟨n, k⟩ :: columns_from (k + 1) rest

theorem foldl_generic_add_column (names : List String) (acc : List ColumnInfo) :
    names.foldl generic_add_column acc = acc ++ columns_from acc.length names := by
  induction names generalizing acc with
  | nil => simp [columns_from]
  | cons n rest ih =>
    simp only [List.foldl_cons, columns_from]
    rw [ih]
    simp [generic_add_column]

theorem columns_of_eq (names : List String) :
    columns_of names = columns_from 0 names := by
  simpa [columns_of] using foldl_generic_add_column names []

theorem generic_column_index_from (names : List String) (name : String) (k : Nat) :
    generic_column_index (columns_from k names) name =
      (match firstMatchIdx names name with
       | some i => k + i
       | none => UINT_MAX) := by
  induction names generalizing k with
  | nil => rfl
  | cons n rest ih =>
    simp only [columns_from, generic_column_index, firstMatchIdx]
    by_cases h : n = name
    · simp [h]
    · simp only [h, if_neg, ite_false]
      rw [ih]
      cases hi : firstMatchIdx rest name <;> simp [Nat.add_assoc, Nat.add_comm 1]

theorem sqlite_column_index_loop_eq (names : List String) (name : String) (k : Nat) :
    sqlite_column_index_loop k names name =
      (match firstMatchIdx names name with
       | some i => k + i
       | none => UINT_MAX) := by
  induction names generalizing k with
  | nil => rfl
  | cons n rest ih =>
    simp only [sqlite_column_index_loop, firstMatchIdx]
    by_cases h : n = name
    · simp [h]
    · have h' : ¬ (name = n) := fun e => h e.symm
      simp only [h, h', if_neg, ite_false]
      rw [ih]
      cases hi : firstMatchIdx rest name <;> simp [Nat.add_assoc, Nat.add_comm 1]

theorem mariadb_column_index_loop_eq (names : List String) (name : String) (k : Nat) :
    mariadb_column_index_loop k names name =
      (match firstMatchIdx names name with
       | some i => k + i
       | none => UINT_MAX) := by
  induction names generalizing k with
  | nil => rfl
  | cons n rest ih =>
    simp only [mariadb_column_index_loop, firstMatchIdx]
    by_cases h : n = name
    · simp [h]
    · have h' : ¬ (name = n) := fun e => h e.symm
      simp only [h, h', if_neg, ite_false]
      rw [ih]
      cases hi : firstMatchIdx rest name <;> simp [Nat.add_assoc, Nat.add_comm 1]

theorem odbc_column_index_loop_eq (names : List String) (name : String) (k : Nat) :
    odbc_column_index_loop k names name =
      (match firstMatchIdx names name with
       | some i => .ok (k + i)
       | none => .error ("Column not found: " ++ name)) := by
  induction names generalizing k with
  | nil => rfl
  | cons n rest ih =>
    simp only [odbc_column_index_loop, firstMatchIdx]
    by_cases h : n = name
    · simp [h]
    · simp only [h, if_neg, ite_false]
      rw [ih]
      cases hi : firstMatchIdx rest name <;> simp [Nat.add_assoc, Nat.add_comm 1]

theorem set_append_singleton (ps : List Value) (u v : Value) :
    (ps ++ [u]).set ps.length v = ps ++ [v] := by
  induction ps with
  | nil => rfl
  | cons p rest ih => simp [List.set, ih]

theorem pg_bind_snoc (ps : List Value) (v : Value) :
    pg_bind ps ps.length v = ps ++ [v] := by
  unfold pg_bind pg_ensure
  simp only [le_refl, if_pos]
  have h : ps.length + 1 - ps.length = 1 := by omega
  rw [h]
  exact set_append_singleton ps .unset v

theorem pg_bind_all_from (vs : List Value) (ps : List Value) :
    (vs.enumFrom ps.length).foldl (fun ps iv => pg_bind ps iv.1 iv.2) ps = ps ++ vs := by
  induction vs generalizing ps with
  | nil => simp [List.enumFrom]
  | cons v rest ih =>
    simp only [List.enumFrom, List.foldl_cons]
    rw [pg_bind_snoc]
    have h1 : ps.length + 1 = (ps ++ [v]).length := by simp
    rw [h1, ih (ps ++ [v])]
    simp

theorem pg_bind_all_eq (vs : List Value) : pg_bind_all vs = vs := by
  have := pg_bind_all_from vs []
  simpa [pg_bind_all, List.enum] using this

theorem pg_transmit_shift (n : Nat) (p : Value) (rest : List Value) (s : Nat) :
    (List.range' (s + 1) n).map (fun i => pg_param_render ((p :: rest).getD i .unset)) =
    (List.range' s n).map (fun i => pg_param_render (rest.getD i .unset)) := by
  induction n generalizing s with
  | zero => rfl
  | succ n ih =>
    rw [List.range'_succ, List.range'_succ]
    simp only [List.map_cons]
    rw [ih (s + 1)]
    simp [List.getD_cons_succ]

theorem map_render_range'_zero (l : List Value) :
    (List.range' 0 l.length).map (fun i => pg_param_render (l.getD i .unset)) =
      l.map pg_param_render := by
  induction l with
  | nil => rfl
  | cons p rest ih =>
    rw [List.length_cons, List.range'_succ]
    simp only [List.map_cons, List.getD_cons_zero]
    rw [pg_transmit_shift, ih]

theorem pg_execute_transmitted_eq (params : List Value) :
    pg_execute_transmitted params = (params.drop 1).map pg_param_render := by
  cases params with
  | nil => rfl
  | cons p rest =>
    unfold pg_execute_transmitted
    simp only [List.length_cons, Nat.add_sub_cancel, List.drop_succ_cons, List.drop_zero]
    rw [pg_transmit_shift, map_render_range'_zero]

theorem sqlite_exec_totalChanges (batch : List Nat) (db : SqliteDb) :
    (sqlite_exec db batch).totalChanges = db.totalChanges + batch.sum := by
  induction batch generalizing db with
  | nil => simp [sqlite_exec]
  | cons c rest ih =>
    simp only [sqlite_exec, List.foldl_cons] at *
    rw [ih]
    simp [sqlite_exec_statement, List.sum_cons]
    omega

theorem sqlite_exec_lastChanges (batch : List Nat) (db : SqliteDb) :
    (sqlite_exec db batch).lastChanges = batch.getLast?.getD db.lastChanges := by
  induction batch generalizing db with
  | nil => simp [sqlite_exec]
  | cons c rest ih =>
    simp only [sqlite_exec, List.foldl_cons] at *
    rw [ih]
    cases rest with
    | nil => simp [sqlite_exec_statement]
    | cons c2 r2 =>
      cases hl : (c2 :: r2).getLast? with
      | none => simp at hl
      | some x => simp [hl]

theorem mariadb_affected_foldl (results : List Nat) (t : Nat) :
    results.foldl (fun total r => if r ≠ UINT64_MAX then total + r else total) t =
      t + (results.filter (fun r => r != UINT64_MAX)).sum := by
  induction results generalizing t with
  | nil => simp
  | cons r rest ih =>
    rw [List.foldl_cons, ih]
    by_cases h : r = UINT64_MAX
    · simp [List.filter_cons, h]
    · simp only [List.filter_cons, h, ne_eq, not_false_iff, if_true, bne_iff_ne, ite_true,
        List.sum_cons]
      omega

/-!  Claim theorems. -/

/-- C1: the claim (and the spec) require a failed native connect or prepare to
raise an error carrying the native code and message, and in particular
`sqlite::connection::create` on an unopenable path to raise ConnectionError
rather than return an empty pointer. The code instead returns an empty
pointer on both failure paths (each marked `// TODO throw exception` in the
source, confirming the raise is the intent): at the failing open code
`SQLITE_CANTOPEN` the connection comes back empty, and at any non-OK prepare
code (here `SQLITE_ERROR = 1`) the statement comes back empty. -/
theorem C1_sqlite_create_returns_empty_on_failure :
    sqlite_connection_create SQLITE_CANTOPEN 0 = none
    ∧ sqlite_connection_prepare 1 0 = none := by decide

/-- C2 counterexample: the claim says string-to-bool matches
{"true","on","1"} case-insensitively, so "True" would map to true; the code's
`to_bool` compares against five exact literals and yields false on "True". -/
theorem C2_counterexample_mixed_case :
    spec_string_to_bool_ci "True" = true ∧ to_bool (Value.str "True") = false := by decide

/-- C2 (amended): `to_bool` on a string value is true exactly when the string
is one of the five literal spellings "TRUE", "true", "ON", "on", "1"
(case-sensitively); every other string, including mixed-case spellings such
as "True" and "oN", yields false. -/
theorem C2_to_bool_exact_literals (s : String) :
    (to_bool (Value.str s) = true ↔
      s ∈ (["TRUE", "true", "ON", "on", "1"] : List String))
    ∧ to_bool (Value.str "True") = false
    ∧ to_bool (Value.str "oN") = false := by
  refine ⟨?_, by decide, by decide⟩
  simp only [to_bool, Bool.or_eq_true, decide_eq_true_eq, List.mem_cons,
    List.mem_singleton, List.not_mem_nil, or_false]
  tauto

/-- C3 counterexample: the claim says every non-optional scalar accessor maps
SQL NULL to the type's zero value uniformly across adapters, so the
PostgreSQL `get_value_string` would give "" on a NULL cell; it gives the
literal string "NULL". -/
theorem C3_counterexample_pg_null_string :
    pg_get_value_string ⟨true, ""⟩ = "NULL"
    ∧ pg_get_value_string ⟨true, ""⟩ ≠ "" := by decide

/-- C3 (amended): NULL and absent values convert to each type's zero value
through the non-optional conversions and to the empty optional through the
`_opt` conversions, `is_null` holds on NULL, and the generic row accessors
forward through the conversions (so NULL-holding and out-of-range slots also
give zero values); on the PostgreSQL row accessors a NULL cell likewise gives
the zero value for blob/bool/int/int64/double, EXCEPT `get_value_string`,
which yields the literal "NULL" rather than the empty string. -/
theorem C3_null_zero_values_amended :
    (to_string .null = "" ∧ to_blob .null = [] ∧ to_bool .null = false
      ∧ to_int .null = .ok 0 ∧ to_int64 .null = .ok 0 ∧ to_double .null = .ok 0)
    ∧ (to_string .unset = "" ∧ to_blob .unset = [] ∧ to_bool .unset = false
      ∧ to_int .unset = .ok 0 ∧ to_int64 .unset = .ok 0 ∧ to_double .unset = .ok 0)
    ∧ (to_string_opt .null = none ∧ to_blob_opt .null = none ∧ to_bool_opt .null = none
      ∧ to_int_opt .null = .ok none ∧ to_int64_opt .null = .ok none
      ∧ to_double_opt .null = .ok none)
    ∧ is_null .null = true
    ∧ (∀ (r : GenericRow) (i : Nat), r.get_value i = .null ∨ r.get_value i = .unset →
        r.get_value_string i = "" ∧ r.get_value_blob i = []
        ∧ r.get_value_bool i = false ∧ r.get_value_int i = .ok 0
        ∧ r.get_value_int64 i = .ok 0 ∧ r.get_value_double i = .ok 0)
    ∧ (∀ c : PGCell, c.isNull = true →
        pg_get_value_string c = "NULL" ∧ pg_get_value_blob c = []
        ∧ pg_get_value_bool c = false ∧ pg_get_value_int c = .ok 0
        ∧ pg_get_value_int64 c = .ok 0 ∧ pg_get_value_double c = .ok 0) := by
  refine ⟨⟨rfl, rfl, rfl, rfl, rfl, rfl⟩, ⟨rfl, rfl, rfl, rfl, rfl, rfl⟩,
    ⟨rfl, rfl, rfl, rfl, rfl, rfl⟩, rfl, ?_, ?_⟩
  · intro r i h
    rw [GenericRow.get_value_string_eq, GenericRow.get_value_blob_eq,
      GenericRow.get_value_bool_eq, GenericRow.get_value_int_eq,
      GenericRow.get_value_int64_eq, GenericRow.get_value_double_eq]
    rcases h with h | h <;> rw [h] <;> exact ⟨rfl, rfl, rfl, rfl, rfl, rfl⟩
  · intro c h
    simp [pg_get_value_string, pg_get_value_blob, pg_get_value_bool,
      pg_get_value_int, pg_get_value_int64, pg_get_value_double, h]

/-- C3 witness: the amended statement applied to a one-column generic row
holding NULL and to a NULL PostgreSQL cell. -/
theorem C3_null_zero_values_witness :
    ((GenericRow.mk [Value.null]).get_value_string 0 = ""
      ∧ (GenericRow.mk [Value.null]).get_value_blob 0 = []
      ∧ (GenericRow.mk [Value.null]).get_value_bool 0 = false
      ∧ (GenericRow.mk [Value.null]).get_value_int 0 = .ok 0
      ∧ (GenericRow.mk [Value.null]).get_value_int64 0 = .ok 0
      ∧ (GenericRow.mk [Value.null]).get_value_double 0 = .ok 0)
    ∧ (pg_get_value_string ⟨true, "x"⟩ = "NULL"
      ∧ pg_get_value_blob ⟨true, "x"⟩ = []
      ∧ pg_get_value_bool ⟨true, "x"⟩ = false
      ∧ pg_get_value_int ⟨true, "x"⟩ = .ok 0
      ∧ pg_get_value_int64 ⟨true, "x"⟩ = .ok 0
      ∧ pg_get_value_double ⟨true, "x"⟩ = .ok 0) :=
  ⟨C3_null_zero_values_amended.2.2.2.2.1 ⟨[Value.null]⟩ 0 (Or.inl (by decide)),
   C3_null_zero_values_amended.2.2.2.2.2 ⟨true, "x"⟩ rfl⟩

/-- C4 counterexample: the claim asserts a common public 1-based convention,
under which public index 1 reaches each native API's first parameter.
SQLite's native parameters are already 1-based and the adapter passes
`index + 1`, so public index 1 reaches native parameter 2, not the first. -/
theorem C4_counterexample_sqlite_one_based :
    sqlite_bind_native_index 1 = 2
    ∧ sqlite_native_first_parameter = 1
    ∧ sqlite_bind_native_index 1 ≠ sqlite_native_first_parameter := by decide

/-- C4 (amended): the adapters do not share one public indexing convention.
MariaDB's positional bind is public 1-based: it passes `index - 1` to the
0-based MYSQL_BIND array, so public index 1 reaches the native first slot
(and public index 0 wraps to 2^32 - 1). SQLite and ODBC pass `index + 1` to
their 1-based native APIs, so their public convention is 0-based: public
index 0 reaches the native first parameter. -/
theorem C4_bind_index_conventions :
    (∀ i : Nat, 1 ≤ i → i < UINT_MOD → mariadb_bind_native_index i = i - 1)
    ∧ mariadb_bind_native_index 1 = mariadb_native_first_parameter
    ∧ mariadb_bind_native_index 0 = UINT_MOD - 1
    ∧ (∀ i : Nat, i + 1 < UINT_MOD → sqlite_bind_native_index i = i + 1)
    ∧ sqlite_bind_native_index 0 = sqlite_native_first_parameter
    ∧ (∀ i : Nat, i + 1 < UINT_MOD → odbc_bind_native_index i = i + 1)
    ∧ odbc_bind_native_index 0 = odbc_native_first_parameter := by
  have hm : UINT_MOD = 4294967296 := by norm_num [UINT_MOD]
  refine ⟨?_, by decide, by decide, ?_, by decide, ?_, by decide⟩
  · intro i h1 h2
    rw [hm] at h2
    simp only [mariadb_bind_native_index, hm]
    omega
  · intro i h
    rw [hm] at h
    simp only [sqlite_bind_native_index, hm]
    omega
  · intro i h
    rw [hm] at h
    simp only [odbc_bind_native_index, hm]
    omega

/-- C4 witness: the amended statement's quantified parts applied at public
index 3 on each adapter. -/
theorem C4_bind_index_conventions_witness :
    mariadb_bind_native_index 3 = 2
    ∧ sqlite_bind_native_index 3 = 4
    ∧ odbc_bind_native_index 3 = 4 :=
  ⟨C4_bind_index_conventions.1 3 (by decide) (by norm_num [UINT_MOD]),
   C4_bind_index_conventions.2.2.2.1 3 (by norm_num [UINT_MOD]),
   C4_bind_index_conventions.2.2.2.2.2.1 3 (by norm_num [UINT_MOD])⟩

/-- C5: for a PostgreSQL statement whose n parameter slots were filled by
binding at indices 0..n-1, `execute_prepared` hands `PQexecPrepared` only the
renderings of the slots 1..n-1 (its loop starts at index 1), so the value at
slot 0 is never transmitted and the number of transmitted parameters is one
less than the number of stored slots. -/
theorem C5_pg_transmits_slots_from_one (vs : List Value) (_h : 1 ≤ vs.length) :
    pg_bind_all vs = vs
    ∧ pg_execute_transmitted (pg_bind_all vs) = (vs.drop 1).map pg_param_render
    ∧ (pg_execute_transmitted (pg_bind_all vs)).length = vs.length - 1 := by
  refine ⟨pg_bind_all_eq vs, ?_, ?_⟩
  · rw [pg_bind_all_eq, pg_execute_transmitted_eq]
  · rw [pg_bind_all_eq, pg_execute_transmitted_eq]
    simp

/-- C5 witness: three values bound at indices 0, 1, 2; only the renderings of
slots 1 and 2 are transmitted. -/
theorem C5_pg_transmits_slots_from_one_witness :
    pg_bind_all [Value.int 7, Value.null, Value.str "x"] =
      [Value.int 7, Value.null, Value.str "x"]
    ∧ pg_execute_transmitted (pg_bind_all [Value.int 7, Value.null, Value.str "x"]) =
        ([Value.null, Value.str "x"]).map pg_param_render
    ∧ (pg_execute_transmitted
        (pg_bind_all [Value.int 7, Value.null, Value.str "x"])).length = 2 :=
  C5_pg_transmits_slots_from_one [Value.int 7, Value.null, Value.str "x"] (by decide)

/-- C6 counterexample: the claim says a `_opt` conversion is empty exactly
when the value is null/absent, and in particular that `to_int_opt` on a
non-null blob holds `to_int` of that blob. On the blob `{0x01}` the code's
`to_int_opt` is the empty optional even though the value is neither null nor
absent and `to_int` gives 0 there. -/
theorem C6_counterexample_blob_int_opt :
    to_int_opt (Value.blob [1]) = .ok none
    ∧ to_int64_opt (Value.blob [1]) = .ok none
    ∧ Value.blob [1] ≠ Value.null
    ∧ Value.blob [1] ≠ Value.unset
    ∧ to_int (Value.blob [1]) = .ok 0 :=
  ⟨rfl, rfl, by decide, by decide, rfl⟩

/-- C6 (amended): each `_opt` conversion is empty on null/absent values and
otherwise agrees with the corresponding non-optional conversion (propagating
the same parse failure on strings), with two extra empty cases the claim
missed: `to_int_opt` and `to_int64_opt` are also empty on every blob (their
`return {};` blob branch builds an empty optional), and `to_blob_opt` is also
empty on int/int64/double values; `to_double_opt` on a blob is the engaged
optional holding 0.0, agreeing with `to_double`. -/
theorem C6_opt_conversions_amended (v : Value) :
    to_string_opt v = (match v with
      | .null => none | .unset => none
      | _ => some (to_string v))
    ∧ to_blob_opt v = (match v with
      | .null => none | .unset => none
      | .int _ => none | .int64 _ => none | .double _ => none
      | _ => some (to_blob v))
    ∧ to_bool_opt v = (match v with
      | .null => none | .unset => none
      | _ => some (to_bool v))
    ∧ to_int_opt v = (match v with
      | .null => .ok none | .unset => .ok none | .blob _ => .ok none
      | _ => Except.map some (to_int v))
    ∧ to_int64_opt v = (match v with
      | .null => .ok none | .unset => .ok none | .blob _ => .ok none
      | _ => Except.map some (to_int64 v))
    ∧ to_double_opt v = (match v with
      | .null => .ok none | .unset => .ok none
      | _ => Except.map some (to_double v)) := by
  cases v <;>
    simp [to_string_opt, to_string, to_blob_opt, to_blob, to_bool_opt, to_bool,
      to_int_opt, to_int, to_int64_opt, to_int64, to_double_opt, to_double, Except.map]

/-- C7 counterexample: the claim says the SQLite adapter's
`connection.execute` on a batch reports the sum of the per-statement
affected-row counts; on a batch of two single-row inserts it reports 1, the
last statement's `sqlite3_changes64`, not the sum 2. -/
theorem C7_counterexample_sqlite_two_inserts :
    sqlite_connection_execute_affected ⟨0, 0⟩ [1, 1] = 1
    ∧ List.sum [1, 1] = 2
    ∧ sqlite_connection_execute_affected ⟨0, 0⟩ [1, 1] ≠ List.sum [1, 1] := by decide

/-- C7 (amended): both adapters run the whole semicolon-joined batch in one
call, but only MariaDB aggregates: its result loop sums `mysql_affected_rows`
over every statement of the batch (skipping the `~0` sentinel of
result-returning statements), while SQLite reports the LAST statement's
change count, falling back to the batch-wide total-changes difference (the
sum) only when that last count is 0. -/
theorem C7_batch_affected_rows_amended (db : SqliteDb) (batch : List Nat)
    (results : List Nat) (h : batch ≠ []) :
    sqlite_connection_execute_affected db batch =
      (if batch.getLast?.getD 0 ≠ 0 then batch.getLast?.getD 0 else batch.sum)
    ∧ mariadb_connection_execute_affected results =
        (results.filter (fun r => r != UINT64_MAX)).sum := by
  constructor
  · cases batch with
    | nil => exact absurd rfl h
    | cons c rest =>
      cases hl : (c :: rest).getLast? with
      | none => simp at hl
      | some x =>
        show (if (sqlite_exec db (c :: rest)).lastChanges ≠ 0 then
                (sqlite_exec db (c :: rest)).lastChanges
              else (sqlite_exec db (c :: rest)).totalChanges - db.totalChanges) = _
        rw [sqlite_exec_lastChanges, sqlite_exec_totalChanges, hl]
        simp
  · unfold mariadb_connection_execute_affected
    rw [mariadb_affected_foldl]
    exact Nat.zero_add _

/-- C7 witness: the amended statement at a batch of three statements whose
last statement changed 4 rows, and a MariaDB batch containing a
result-returning statement (sentinel) between two updates. -/
theorem C7_batch_affected_rows_amended_witness :
    sqlite_connection_execute_affected ⟨5, 3⟩ [2, 0, 4] =
      (if ([2, 0, 4] : List Nat).getLast?.getD 0 ≠ 0 then ([2, 0, 4] : List Nat).getLast?.getD 0
       else ([2, 0, 4] : List Nat).sum)
    ∧ mariadb_connection_execute_affected [3, UINT64_MAX, 4] =
        (([3, UINT64_MAX, 4] : List Nat).filter (fun r => r != UINT64_MAX)).sum :=
  C7_batch_affected_rows_amended ⟨5, 3⟩ [2, 0, 4] [3, UINT64_MAX, 4] (by decide)

/-- C8 counterexample: the claim says two exhausted cursor iterators compare
equal regardless of which statement produced them; the SQLite adapter's
`different` treats iterators over distinct statements as different even when
both carry the exhausted state `SQLITE_DONE`. -/
theorem C8_counterexample_exhausted_different_stmts :
    (sqlite_resultset_end 0).state = SQLITE_DONE
    ∧ (sqlite_resultset_end 1).state = SQLITE_DONE
    ∧ sqlite_iter_different (sqlite_resultset_end 0) (sqlite_resultset_end 1) = true := by decide

/-- C8 (amended): the PostgreSQL adapter implements the claimed equality (two
invalid/exhausted iterators are equal regardless of handle; otherwise
equality is identity of the result handle plus the row index), but the SQLite
adapter's equality always requires the same statement handle AND the same
step-state token, so exhausted iterators of different statements compare
unequal there; in both adapters `begin() == end()` holds exactly when the
query returned zero rows. -/
theorem C8_iterator_equality_amended :
    (∀ a b : PGIter, pg_iter_ok a = false → pg_iter_ok b = false →
        pg_iter_different a b = false)
    ∧ (∀ a b : PGIter, pg_iter_ok a = true ∨ pg_iter_ok b = true →
        (pg_iter_different a b = false ↔ a.stmt = b.stmt ∧ a.row = b.row))
    ∧ (∀ a b : SqliteIter,
        sqlite_iter_different a b = false ↔ a.stmt = b.stmt ∧ a.state = b.state)
    ∧ (∀ stmt N : Nat,
        sqlite_iter_different
          (sqlite_resultset_begin stmt (if N = 0 then SQLITE_DONE else SQLITE_ROW))
          (sqlite_resultset_end stmt) = false ↔ N = 0)
    ∧ (∀ res : PGResHandle,
        pg_iter_different (pg_resultset_begin res) pg_resultset_end = false
          ↔ res.ntuples = 0) := by
  refine ⟨?_, ?_, ?_, ?_, ?_⟩
  · intro a b ha hb
    simp [pg_iter_different, ha, hb]
  · intro a b h
    rcases h with h | h <;> simp [pg_iter_different, h]
  · intro a b
    unfold sqlite_iter_different
    by_cases h : a.stmt = b.stmt <;> simp [h]
  · intro stmt N
    by_cases hN : N = 0 <;>
      simp [hN, sqlite_resultset_begin, sqlite_resultset_end, sqlite_iter_different,
        SQLITE_ROW, SQLITE_DONE]
  · intro res
    by_cases h : res.ntuples = 0 <;>
      simp [pg_resultset_begin, pg_resultset_end, pg_iter_different, pg_iter_ok, h,
        Nat.pos_of_ne_zero]

/-- C8 witness: the amended statement's hypothesis-bearing parts applied to
two exhausted PostgreSQL iterators over different result handles (equal) and
to two identical valid PostgreSQL iterators (equal by handle and row). -/
theorem C8_iterator_equality_amended_witness :
    pg_iter_different ⟨some ⟨0, 0⟩, 0⟩ ⟨some ⟨1, 0⟩, 5⟩ = false
    ∧ (pg_iter_different ⟨some ⟨2, 3⟩, 1⟩ ⟨some ⟨2, 3⟩, 1⟩ = false ↔
        (⟨some ⟨2, 3⟩, 1⟩ : PGIter).stmt = (⟨some ⟨2, 3⟩, 1⟩ : PGIter).stmt
        ∧ (⟨some ⟨2, 3⟩, 1⟩ : PGIter).row = (⟨some ⟨2, 3⟩, 1⟩ : PGIter).row) :=
  ⟨C8_iterator_equality_amended.1 ⟨some ⟨0, 0⟩, 0⟩ ⟨some ⟨1, 0⟩, 5⟩ (by decide) (by decide),
   C8_iterator_equality_amended.2.1 ⟨some ⟨2, 3⟩, 1⟩ ⟨some ⟨2, 3⟩, 1⟩ (Or.inl (by decide))⟩

/-- C9 counterexample: the claim says `column_index` on a missing name returns
the out-of-range sentinel (never raises) in every adapter; the ODBC adapter
instead throws `std::runtime_error("Column not found: ...")`. -/
theorem C9_counterexample_odbc_throws :
    odbc_column_index ["id", "int64"] "toto" = .error "Column not found: toto" := rfl

/-- C9 (amended): the generic buffered resultset, the SQLite adapter and the
MariaDB adapter return the `~0u` sentinel on a lookup miss and the ordinal of
the first case-sensitive match on a hit (the PostgreSQL adapter maps native
`PQfnumber` results likewise: negative to the sentinel, non-negative through
unchanged); the ODBC adapter alone throws `runtime_error` on a miss instead
of returning the sentinel. -/
theorem C9_column_index_amended (names : List String) (name : String) :
    (firstMatchIdx names name = none →
        generic_column_index (columns_of names) name = UINT_MAX
      ∧ sqlite_column_index names name = UINT_MAX
      ∧ mariadb_column_index names name = UINT_MAX
      ∧ odbc_column_index names name = .error ("Column not found: " ++ name))
    ∧ (∀ i : Nat, firstMatchIdx names name = some i →
        generic_column_index (columns_of names) name = i
      ∧ sqlite_column_index names name = i
      ∧ mariadb_column_index names name = i
      ∧ odbc_column_index names name = .ok i)
    ∧ (∀ r : Int, r < 0 → pg_column_index r = UINT_MAX)
    ∧ (∀ r : Int, 0 ≤ r → pg_column_index r = r.toNat) := by
  refine ⟨?_, ?_, ?_, ?_⟩
  · intro h
    rw [columns_of_eq]
    refine ⟨?_, ?_, ?_, ?_⟩
    · rw [generic_column_index_from, h]
    · rw [sqlite_column_index, sqlite_column_index_loop_eq, h]
    · rw [mariadb_column_index, mariadb_column_index_loop_eq, h]
    · rw [odbc_column_index, odbc_column_index_loop_eq, h]
  · intro i h
    rw [columns_of_eq]
    refine ⟨?_, ?_, ?_, ?_⟩
    · rw [generic_column_index_from, h]
      simp
    · rw [sqlite_column_index, sqlite_column_index_loop_eq, h]
      simp
    · rw [mariadb_column_index, mariadb_column_index_loop_eq, h]
      simp
    · rw [odbc_column_index, odbc_column_index_loop_eq, h]
      simp
  · intro r h
    simp [pg_column_index, not_le.mpr h]
  · intro r h
    simp [pg_column_index, h]

/-- C9 witness: the amended statement applied to the column list
["id", "x"]: a miss on "toto" gives the sentinel (and the ODBC throw), a hit
on "x" gives ordinal 1, and the PostgreSQL mapping at -1 and 3. -/
theorem C9_column_index_amended_witness :
    (generic_column_index (columns_of ["id", "x"]) "toto" = UINT_MAX
      ∧ sqlite_column_index ["id", "x"] "toto" = UINT_MAX
      ∧ mariadb_column_index ["id", "x"] "toto" = UINT_MAX
      ∧ odbc_column_index ["id", "x"] "toto" = .error ("Column not found: " ++ "toto"))
    ∧ (generic_column_index (columns_of ["id", "x"]) "x" = 1
      ∧ sqlite_column_index ["id", "x"] "x" = 1
      ∧ mariadb_column_index ["id", "x"] "x" = 1
      ∧ odbc_column_index ["id", "x"] "x" = .ok 1)
    ∧ pg_column_index (-1) = UINT_MAX
    ∧ pg_column_index 3 = 3 :=
  ⟨(C9_column_index_amended ["id", "x"] "toto").1 (by decide),
   (C9_column_index_amended ["id", "x"] "x").2.1 1 (by decide),
   (C9_column_index_amended ["id", "x"] "toto").2.2.1 (-1) (by decide),
   (C9_column_index_amended ["id", "x"] "toto").2.2.2 3 (by decide)⟩

/-- C10 counterexample: the claim says the typed row accessor
`get_value_string` on a blob-valued column yields the raw bytes reinterpreted
as characters; the generic row's `get_value_string` delegates to the
display-formatting `to_string`, so the blob {0x01,0x02} comes back as the hex
string "0102", not as the two raw bytes. -/
theorem C10_counterexample_generic_row_hex :
    (GenericRow.mk [Value.blob [1, 2]]).get_value_string 0 = "0102"
    ∧ spec_raw_bytes_string [1, 2] = "\x01\x02"
    ∧ (GenericRow.mk [Value.blob [1, 2]]).get_value_string 0
        ≠ spec_raw_bytes_string [1, 2] := by decide

/-- C10 (amended): the display-formatting `to_string` renders a blob as its
lowercase hexadecimal digits, and in particular renders {0x01,0x02} as the
literal "0102"; the generic row's typed accessor `get_value_string` delegates
to `to_string`, so a blob-valued column also reads back as the hex rendering,
not as raw bytes. -/
theorem C10_blob_string_hex_amended (b : List Nat) (r : GenericRow) (i : Nat) :
    to_string (Value.blob b) = blob_to_hex_string b
    ∧ to_string (Value.blob [1, 2]) = "0102"
    ∧ r.get_value_string i = to_string (r.get_value i)
    ∧ (GenericRow.mk [Value.blob b]).get_value_string 0 = blob_to_hex_string b :=
  ⟨rfl, by decide, GenericRow.get_value_string_eq r i,
   by simp [GenericRow.get_value_string, to_string]⟩

end Sqlcpp
